import Mathlib

/-!
# Shallow embedding of the cosmogrb core

This file embeds the two core source modules of the repository:

* `cosmogrb/universe/universe.py` — the `Universe` orchestrator, the
  `ParameterServer` parameter bundle, and the `GRBWrapper` per-job driver;
* `cosmogrb/instruments/gbm/response_generator.py` — the `SingletonMeta`
  metaclass and the `ResponseGenerator` registry of per-detector response
  generators.

External collaborators (the `popsynth` population library, the
`gbm_drm_gen.DRMGenTTE` response objects, the filesystem, the dask
executor and the concrete GRB physics engine) are modelled as explicit
inputs: the population as already loaded data, file existence as a
predicate `String → Bool`, the per-detector matrix as an oracle
`DRMGen → List (List ℚ)`, and the per-GRB job as a fallible function.
Scalar (Python float) values are modelled as `ℚ`; none of the verified
properties depend on float rounding.  Python exceptions are modelled
with `Except`: an `.error` result carries no successor state, matching
an exception that propagates before the mutation completes.

The error taxonomy names (`UnfilteredPopulationError`, `MissingFieldError`,
`UnknownDetectorError`) follow the specification's §7 taxonomy; each
constructor corresponds to exactly one raise site in the source
(the assert at universe.py line 56, the raise at universe.py line 91,
and the asserts in response_generator.py).
-/

set_option autoImplicit false

/-- A parameter value held by a `ParameterServer`: the `name` entry is a
string, every other entry is a scalar. -/
inductive PValue where
  | str (s : String)
  | num (q : ℚ)
  deriving DecidableEq, Repr

/-- Errors of the specification's §7 taxonomy that occur at Universe
construction or registry query time. -/
inductive CosmogrbError where
  | UnfilteredPopulationError
  | MissingFieldError
  | UnknownDetectorError
  deriving DecidableEq, Repr

/-- The population as loaded by
`popsynth.Population.from_file(population_file).to_sub_population()`
(universe.py lines 48–50; the load itself is an external collaborator,
out of scope per spec §1).  The fields mirror exactly the attributes the
`Universe` reads: `ra`, `dec`, `distances`, `duration` and `selection`.
`duration` is `none` when the population schema lacks a duration field,
in which case the attribute access at universe.py line 87 raises. -/
structure Population where
  ra : List ℚ
  dec : List ℚ
  distances : List ℚ
  duration : Option (List ℚ)
  selection : List Bool
  deriving DecidableEq, Repr

/-- Python dict insertion `d[k] = v`: replaces the value of an existing
key in place, otherwise appends the new pair at the end. -/
def dict_insert (d : List (String × PValue)) (k : String) (v : PValue) :
    List (String × PValue) :=
  if (List.lookup k d).isSome then
    d.map (fun kv => if kv.1 = k then (kv.1, v) else kv)
  else
    d ++ [(k, v)]

/-- `ParameterServer` (universe.py lines 205–255): a key→value bundle of
per-GRB parameters plus an initially unset output file path.
The Python class stores the six named parameters and then the extra
keyword parameters in one dict; Python dict equality ignores insertion
order, so `parameters` holds the association list in the order the
`Universe` builds it. -/
structure ParameterServer where
  parameters : List (String × PValue)
  file_path : Option String
  deriving DecidableEq, Repr

/-- `ParameterServer.set_file_path` (universe.py line 243). -/
def ParameterServer.set_file_path (ps : ParameterServer) (p : String) :
    ParameterServer :=
  { ps with file_path := some p }

/-- `pathlib.Path.__truediv__`: join two path components with `/`. -/
def path_join (dir file : String) : String :=
  dir ++ "/" ++ file

/-- `pathlib.Path.absolute()`: absolute-path resolution depends on the
process working directory, which is outside the embedding; it is modelled
as the identity on the path strings the embedding manipulates. -/
def Path.absolute (p : String) : String :=
  p

/-- The state of a `Universe` after `__init__` (universe.py lines 23–75).
`local_parameters` models the `_local_parameters` hook that concrete
subclasses may fill during `_process_populations`; the class in this
repository leaves it empty (universe.py line 70). -/
structure Universe where
  population_file : String
  is_processed : Bool
  grb_base_name : String
  save_path : String
  n_grbs : Nat
  names : List String
  ra : List ℚ
  dec : List ℚ
  z : List ℚ
  duration : List ℚ
  local_parameters : List (String × List ℚ)
  parameter_servers : List ParameterServer
  deriving DecidableEq, Repr

/-- The `param_dict` built for record `i` in
`Universe._contstruct_parameter_servers` (universe.py lines 96–109):
`z`, `ra`, `dec`, `name`, `duration`, then the hard-coded `T0 = 0.0`
(line 105, "this is temporary"), then the local parameters inserted with
Python dict semantics. -/
def Universe.param_dict (u : Universe) (i : Nat) : List (String × PValue) :=
  (u.local_parameters.map (fun kv => (kv.1, PValue.num (kv.2.getD i 0)))).foldl
    (fun d kv => dict_insert d kv.1 kv.2)
    [("z", PValue.num (u.z.getD i 0)),
     ("ra", PValue.num (u.ra.getD i 0)),
     ("dec", PValue.num (u.dec.getD i 0)),
     ("name", PValue.str (u.names.getD i "")),
     ("duration", PValue.num (u.duration.getD i 0)),
     ("T0", PValue.num 0)]

/-- The `ParameterServer` built for record `i` at universe.py lines
111–113: `self._parameter_server_type(**param_dict)`.  The keyword
dispatch into `ParameterServer.__init__` stores the same key→value map
(Python dict equality ignores order), with the file path unset. -/
def Universe.contstruct_parameter_server (u : Universe) (i : Nat) :
    ParameterServer :=
  { parameters := u.param_dict i, file_path := none }

/-- The per-record output file name
`self._save_path / f"{self._name[i]}_store.h5"` (universe.py line 115). -/
def Universe.store_file_name (u : Universe) (i : Nat) : String :=
  path_join u.save_path (u.names.getD i "" ++ "_store.h5")

/-- One iteration of the loop body at universe.py lines 95–124: build the
server, then either skip it (file already on disk, line 117) or set its
file path and keep it (lines 122–124). -/
def Universe.skip_or_server (u : Universe) (fs : String → Bool) (i : Nat) :
    Option ParameterServer :=
  let param_server := u.contstruct_parameter_server i
  let file_name := u.store_file_name i
  if fs file_name then none
  else some (param_server.set_file_path file_name)

/-- One `append if kept` step of the loop at universe.py lines 95–124:
a skipped record leaves the accumulated run list alone, a kept server
is appended at the end. -/
def collect_step {β : Type} (g : Nat → Option β) (acc : List β) (i : Nat) :
    List β :=
  match g i with
  | none => acc
  | some b => acc ++ [b]

/-- `Universe._contstruct_parameter_servers` (universe.py lines 93–124):
iterate the loop body over `range(self._n_grbs)`, appending the kept
servers to `self._parameter_servers`.  `fs` is the filesystem's
`Path.exists` predicate at construction time. -/
def Universe.contstruct_parameter_servers (u : Universe) (fs : String → Bool) :
    Universe :=
  { u with parameter_servers :=
      (List.foldl (collect_step (u.skip_or_server fs))
        u.parameter_servers
        (List.range u.n_grbs)) }

/-- `Universe.__init__` (universe.py lines 23–75) together with
`_process_populations` (lines 126–129).  In source order:

1. resolve and store the population file path (line 44);
2. `is_processed := false` (line 46);
3. the selection assert `sum(selection) == len(selection)` (lines 56–58),
   modelled as `UnfilteredPopulationError` per the spec taxonomy;
4. `n_grbs := len(selection)` (line 62) and the names (line 66);
5. `_process_populations`: sky coordinates, redshift, then duration,
   where a population schema without duration raises (lines 85–91),
   modelled as `MissingFieldError` per the spec taxonomy;
6. `_contstruct_parameter_servers` (line 75).

An `.error` result models the exception propagating out of `__init__`:
no `Universe` object (and no parameter-server list) is produced. -/
def Universe.init (pop : Population) (population_file : String)
    (grb_base_name : String) (save_path : String)
    (local_parameters : List (String × List ℚ)) (fs : String → Bool) :
    Except CosmogrbError Universe :=
  if pop.selection.count true = pop.selection.length then
    match pop.duration with
    | none => .error .MissingFieldError
    | some dur =>
      let n := pop.selection.length
      let base : Universe :=
        { population_file := Path.absolute population_file
          is_processed := false
          grb_base_name := grb_base_name
          save_path := save_path
          n_grbs := n
          names := (List.range n).map (fun i => grb_base_name ++ "_" ++ toString i)
          ra := pop.ra
          dec := pop.dec
          z := pop.distances
          duration := dur
          local_parameters := local_parameters
          parameter_servers := [] }
      .ok (base.contstruct_parameter_servers fs)
  else .error .UnfilteredPopulationError

/-- `Universe.go` runs each queued server through the abstract
`_grb_wrapper` hook, which raises on job failure; `run_one ps serial`
models one `self._grb_wrapper(ps, serial=...)` invocation with error
type `ε` for the propagated exception.  Serial mode stops at the first
failure; distributed gather re-raises the first failed task, so both
modes are a left-to-right short-circuit over the queued servers. -/
def run_batch {ε : Type} (run_one : ParameterServer → Bool → Except ε Unit) :
    List ParameterServer → Bool → Except ε Unit
  | [], _ => .ok ()
  | ps :: rest, serial =>
    match run_one ps serial with
    | .error e => .error e
    | .ok _ => run_batch run_one rest serial

/-- `Universe.go` (universe.py lines 131–162).  With a dask client the
wrapper is mapped over the scattered servers with the default
`serial=False`; without one it is called serially with `serial=True`
(line 157).  `self._is_processed = True` (line 162) runs only after the
whole batch returned, so an `.error` result leaves the flag where it
was (the exception propagates before the assignment). -/
def Universe.go {ε : Type} (u : Universe)
    (run_one : ParameterServer → Bool → Except ε Unit) (client : Bool) :
    Except ε Universe :=
  match run_batch run_one u.parameter_servers (!client) with
  | .error e => .error e
  | .ok _ => .ok { u with is_processed := true }

/-- The `Survey` constructor arguments at universe.py lines 187–190: the
per-GRB save files and the population file.  The survey internals are an
external collaborator (spec §2); only this interface is modelled. -/
structure Survey where
  grb_save_files : List String
  population_file : String
  deriving DecidableEq, Repr

/-- `Universe.save` (universe.py lines 164–192).  When `is_processed` is
false nothing happens (`none`: no artifact is written, and the method
never mutates the `Universe`).  Otherwise it rebuilds the expected
per-GRB file paths from the base name and index over the full
`range(self._n_grbs)` (lines 178–183), builds the `Survey`, and writes
it at `file_name`; the result pairs the written path with the survey
content handed to `survey.write`. -/
def Universe.save (u : Universe) (file_name : String) :
    Option (String × Survey) :=
  if u.is_processed then
    some (file_name,
      { grb_save_files :=
          (List.range u.n_grbs).map
            (fun i => Path.absolute
              (path_join u.save_path
                (u.grb_base_name ++ "_" ++ toString i ++ "_store.h5")))
        population_file := u.population_file })
  else none

/-- Observable effects of one `GRBWrapper.__init__` invocation
(universe.py lines 258–279) on the abstract GRB object built by the
`_grb_type` hook: construction with a keyword dict, `go` with an
optional client and the serial flag, `save` with a path and the
`clean_up` flag, and the final `del`. -/
inductive GRBEvent where
  | construct (params : List (String × PValue))
  | run (client : Option Unit) (serial : Bool)
  | save (path : Option String) (clean_up : Bool)
  | discard
  deriving DecidableEq, Repr

/-- `GRBWrapper.__init__` (universe.py lines 258–279), as the trace of
effects on the GRB it builds, paired with its return value (`None` in
Python, `Unit` here).  The source's two branches differ only in passing
`client=None` explicitly (line 269) versus leaving `go`'s default
client (line 275); both run the GRB with the mode flag passed through,
then save to the server's file path with `clean_up=True` (line 277) and
discard the instance (line 279). -/
def GRBWrapper.init (parameter_server : ParameterServer) (serial : Bool) :
    List GRBEvent × Unit :=
  let constructed := GRBEvent.construct parameter_server.parameters
  if !serial then
    ([constructed, GRBEvent.run none serial,
      GRBEvent.save parameter_server.file_path true, GRBEvent.discard], ())
  else
    ([constructed, GRBEvent.run none serial,
      GRBEvent.save parameter_server.file_path true, GRBEvent.discard], ())

/-- `_det_translate` (response_generator.py lines 12–27). -/
def det_translate : List (String × String) :=
  [("n0", "NAI_00"), ("n1", "NAI_01"), ("n2", "NAI_02"), ("n3", "NAI_03"),
   ("n4", "NAI_04"), ("n5", "NAI_05"), ("n6", "NAI_06"), ("n7", "NAI_07"),
   ("n8", "NAI_08"), ("n9", "NAI_09"), ("na", "NAI_10"), ("nb", "NAI_11"),
   ("b0", "BGO_00"), ("b1", "BGO_01")]

/-- The state of one external `gbm_drm_gen.DRMGenTTE` object: the
construction arguments of response_generator.py lines 54–63 plus the
mutable current time and sky pointing.  Modelled from the spec (§3
DetectorResponseModel): the object is an external collaborator whose
observable state is its identity, fixed construction data, and mutable
current time / pointing; the pointing starts unset. -/
structure DRMGen where
  det_name : String
  time : ℚ
  T0 : ℚ
  cspecfile : String
  poshist : String
  mat_type : Nat
  occult : Bool
  ra : Option ℚ
  dec : Option ℚ
  deriving DecidableEq, Repr

/-- `DRMGenTTE.set_time`, modelled from the spec (§4.1): mutates the
model's current time. -/
def DRMGen.set_time (d : DRMGen) (time : ℚ) : DRMGen :=
  { d with time := time }

/-- `DRMGenTTE.set_location`, modelled from the spec (§4.1): mutates the
model's current pointing. -/
def DRMGen.set_location (d : DRMGen) (ra dec : ℚ) : DRMGen :=
  { d with ra := some ra, dec := some dec }

/-- The `ResponseGenerator` registry state (response_generator.py lines
38–80): detector code → response generator, plus the derived
code → Monte Carlo energies and code → energy bounds maps. -/
structure ResponseGenerator where
  detectors : List (String × DRMGen)
  mc_energies : List (String × List ℚ)
  ebounds : List (String × List ℚ)
  deriving DecidableEq, Repr

/-- `ResponseGenerator.__init__` (response_generator.py lines 39–68).
`T0` models the external `gbm_orbit.T0` reference epoch, `data_file`
the external `get_path_of_data_file` resolver, and `mc_of` / `eb_of`
the `monte_carlo_energies` / `ebounds` attributes of the freshly built
external generator for each detector code.  Each generator is built
with `time=1`, the shared `T0`, the per-detector cspec file, the shared
pointing-history file, `mat_type=2` and `occult=False`. -/
def ResponseGenerator.init (T0 : ℚ) (data_file : String → String)
    (mc_of eb_of : String → List ℚ) : ResponseGenerator :=
  { detectors :=
      det_translate.map
        (fun kv =>
          (kv.1,
           { det_name := kv.2
             time := 1
             T0 := T0
             cspecfile := data_file ("gbm_cspec/" ++ kv.1 ++ ".pha")
             poshist := data_file "posthist.fit"
             mat_type := 2
             occult := false
             ra := none
             dec := none }))
    mc_energies := det_translate.map (fun kv => (kv.1, mc_of kv.1))
    ebounds := det_translate.map (fun kv => (kv.1, eb_of kv.1)) }

/-- Mutation of the generator stored under one key of the detector
dict: `self._detectors[det_name].set_...(...)` mutates the object held
in the dict in place. -/
def update_det (l : List (String × DRMGen)) (k : String)
    (f : DRMGen → DRMGen) : List (String × DRMGen) :=
  l.map (fun kv => if kv.1 = k then (kv.1, f kv.2) else kv)

/-- `ResponseGenerator.set_time` (response_generator.py lines 98–114):
assert the detector is registered (modelled as `UnknownDetectorError`
per the spec taxonomy; on failure no state is produced, matching the
`AssertionError` raised before any mutation), then set its time. -/
def ResponseGenerator.set_time (rg : ResponseGenerator) (time : ℚ)
    (det_name : String) : Except CosmogrbError ResponseGenerator :=
  match List.lookup det_name rg.detectors with
  | none => .error .UnknownDetectorError
  | some _ =>
    .ok { rg with detectors :=
            update_det rg.detectors det_name (fun d => d.set_time time) }

/-- `ResponseGenerator.set_location` (response_generator.py lines
116–134): assert the detector is registered, set its pointing, and
return the detector's response matrix transposed (line 134).  `mat` is
the external `.matrix` property of a generator as a function of its
current state. -/
def ResponseGenerator.set_location (mat : DRMGen → List (List ℚ))
    (rg : ResponseGenerator) (ra dec : ℚ) (det_name : String) :
    Except CosmogrbError (ResponseGenerator × List (List ℚ)) :=
  match List.lookup det_name rg.detectors with
  | none => .error .UnknownDetectorError
  | some _ =>
    let rg2 : ResponseGenerator :=
      { rg with detectors :=
          update_det rg.detectors det_name (fun d => d.set_location ra dec) }
    match List.lookup det_name rg2.detectors with
    | none => .error .UnknownDetectorError
    | some d => .ok (rg2, (mat d).transpose)

/-- `ResponseGenerator.generate_response` (response_generator.py lines
82–96): assert the detector is registered, set its time, assert again
(line 90), set its location, and return
`self._detectors[det_name].matrix.T`. -/
def ResponseGenerator.generate_response (mat : DRMGen → List (List ℚ))
    (rg : ResponseGenerator) (ra dec time : ℚ) (det_name : String) :
    Except CosmogrbError (ResponseGenerator × List (List ℚ)) :=
  match List.lookup det_name rg.detectors with
  | none => .error .UnknownDetectorError
  | some _ =>
    let rg1 : ResponseGenerator :=
      { rg with detectors :=
          update_det rg.detectors det_name (fun d => d.set_time time) }
    match List.lookup det_name rg1.detectors with
    | none => .error .UnknownDetectorError
    | some _ =>
      let rg2 : ResponseGenerator :=
        { rg1 with detectors :=
            update_det rg1.detectors det_name (fun d => d.set_location ra dec) }
      match List.lookup det_name rg2.detectors with
      | none => .error .UnknownDetectorError
      | some d => .ok (rg2, (mat d).transpose)

/-- The per-class state `SingletonMeta` keeps (response_generator.py
lines 30–35): the cached `_inst` attribute, instrumented with a count
of how many times the underlying class body actually ran. -/
structure SingletonState (α : Type) where
  inst : Option α
  builds : Nat
  deriving DecidableEq, Repr

/-- `SingletonMeta.__call__` (response_generator.py lines 31–35): if no
instance is cached, build one, cache it and count the build; otherwise
return the cached instance untouched. -/
def SingletonMeta.call {α : Type} (build : Unit → α)
    (s : SingletonState α) : SingletonState α × α :=
  match s.inst with
  | some obj => (s, obj)
  | none =>
    let obj := build ()
    ({ inst := some obj, builds := s.builds + 1 }, obj)

/-- `n` successive construction requests `ResponseGenerator()` through
the metaclass, returning the final class state and the list of
returned instances (first request first). -/
def SingletonMeta.iterate {α : Type} (build : Unit → α)
    (s : SingletonState α) : Nat → SingletonState α × List α
  | 0 => (s, [])
  | n + 1 =>
    let step := SingletonMeta.call build s
    let rest := SingletonMeta.iterate build step.1 n
    (rest.1, step.2 :: rest.2)

/-- A small fully selected one-record population used by several
witnesses. -/
def pop_example : Population :=
  { ra := [1], dec := [2], distances := [3], duration := some [4],
    selection := [true] }

/-- The universe `Universe.init` produces from `pop_example` with an
empty filesystem. -/
def universe_example : Universe :=
  { population_file := "pop.h5"
    is_processed := false
    grb_base_name := "SynthGRB"
    save_path := "."
    n_grbs := 1
    names := ["SynthGRB_0"]
    ra := [1]
    dec := [2]
    z := [3]
    duration := [4]
    local_parameters := []
    parameter_servers :=
      [{ parameters :=
          [("z", PValue.num 3), ("ra", PValue.num 1), ("dec", PValue.num 2),
           ("name", PValue.str "SynthGRB_0"), ("duration", PValue.num 4),
           ("T0", PValue.num 0)]
         file_path := some "./SynthGRB_0_store.h5" }] }

/-- The spec §8 skip-on-exists scenario: three selected records, base
name `Test`, and `Test_1_store.h5` already on disk. -/
def pop_example3 : Population :=
  { ra := [1, 2, 3], dec := [4, 5, 6], distances := [7, 8, 9],
    duration := some [10, 11, 12], selection := [true, true, true] }

/-- The filesystem of the skip-on-exists scenario: exactly
`./Test_1_store.h5` exists. -/
def fs_example : String → Bool :=
  fun s => s == "./Test_1_store.h5"

/-- The universe `Universe.init` produces from `pop_example3` under
`fs_example`: record 1 is skipped, records 0 and 2 are queued. -/
def universe_example3 : Universe :=
  { population_file := "pop3.h5"
    is_processed := false
    grb_base_name := "Test"
    save_path := "."
    n_grbs := 3
    names := ["Test_0", "Test_1", "Test_2"]
    ra := [1, 2, 3]
    dec := [4, 5, 6]
    z := [7, 8, 9]
    duration := [10, 11, 12]
    local_parameters := []
    parameter_servers :=
      [{ parameters :=
          [("z", PValue.num 7), ("ra", PValue.num 1), ("dec", PValue.num 4),
           ("name", PValue.str "Test_0"), ("duration", PValue.num 10),
           ("T0", PValue.num 0)]
         file_path := some "./Test_0_store.h5" },
       { parameters :=
          [("z", PValue.num 9), ("ra", PValue.num 3), ("dec", PValue.num 6),
           ("name", PValue.str "Test_2"), ("duration", PValue.num 12),
           ("T0", PValue.num 0)]
         file_path := some "./Test_2_store.h5" }] }

/-- A per-GRB job that always succeeds, for the lifecycle witnesses. -/
def run_ok : ParameterServer → Bool → Except Unit Unit :=
  fun _ _ => .ok ()

/-- The concrete registry with trivial external oracles, for the
response-generator witnesses. -/
def rg_example : ResponseGenerator :=
  ResponseGenerator.init 0 (fun s => s) (fun _ => []) (fun _ => [])

/-- The `n0` generator of `rg_example`. -/
def drm_n0 : DRMGen :=
  { det_name := "NAI_00", time := 1, T0 := 0,
    cspecfile := "gbm_cspec/n0.pha", poshist := "posthist.fit",
    mat_type := 2, occult := false, ra := none, dec := none }

/-! ## Helper lemmas -/

/-- The append-accumulate loop over an option-valued body collects
exactly the `some` results, in order. -/
theorem foldl_collect_eq_filterMap {β : Type} (g : Nat → Option β)
    (l : List Nat) (acc : List β) :
    List.foldl (collect_step g) acc l = acc ++ l.filterMap g := by
  induction l generalizing acc with
  | nil => simp
  | cons x xs ih =>
    simp only [List.foldl_cons, List.filterMap_cons, collect_step]
    cases hg : g x
    · simp [ih]
    · simp [ih]

theorem contstruct_parameter_servers_eq (u : Universe) (fs : String → Bool) :
    (u.contstruct_parameter_servers fs).parameter_servers
      = u.parameter_servers
        ++ (List.range u.n_grbs).filterMap (u.skip_or_server fs) := by
  simp only [Universe.contstruct_parameter_servers]
  exact foldl_collect_eq_filterMap (u.skip_or_server fs) _ _

theorem getD_map_range {β : Type} (f : Nat → β) (n i : Nat) (h : i < n)
    (d : β) : ((List.range n).map f).getD i d = f i := by
  rw [List.getD_eq_getElem?_getD]
  simp [List.getElem?_map, List.getElem?_range, h]

/-- Inversion of a successful `Universe.init`: the population passed
the selection check, has a duration column, and the resulting universe
is the construction over the base state. -/
theorem Universe.init_ok {pop : Population} {pf bn sp : String}
    {lps : List (String × List ℚ)} {fs : String → Bool} {u : Universe}
    (h : Universe.init pop pf bn sp lps fs = .ok u) :
    pop.selection.count true = pop.selection.length ∧
    ∃ dur, pop.duration = some dur ∧
      u = Universe.contstruct_parameter_servers
            { population_file := Path.absolute pf
              is_processed := false
              grb_base_name := bn
              save_path := sp
              n_grbs := pop.selection.length
              names := (List.range pop.selection.length).map
                (fun i => bn ++ "_" ++ toString i)
              ra := pop.ra
              dec := pop.dec
              z := pop.distances
              duration := dur
              local_parameters := lps
              parameter_servers := [] } fs := by
  unfold Universe.init at h
  by_cases hc : pop.selection.count true = pop.selection.length
  · rw [if_pos hc] at h
    cases hd : pop.duration with
    | none => rw [hd] at h; cases h
    | some dur =>
      rw [hd] at h
      refine ⟨hc, dur, rfl, ?_⟩
      cases h
      rfl
  · rw [if_neg hc] at h
    cases h

/-- Inversion of one kept loop iteration. -/
theorem skip_or_server_some {u : Universe} {fs : String → Bool} {i : Nat}
    {ps : ParameterServer} (h : u.skip_or_server fs i = some ps) :
    fs (u.store_file_name i) = false ∧
    ps = (u.contstruct_parameter_server i).set_file_path
          (u.store_file_name i) := by
  simp only [Universe.skip_or_server] at h
  cases hfs : fs (u.store_file_name i) with
  | true => rw [hfs] at h; simp at h
  | false =>
    rw [hfs] at h
    simp at h
    exact ⟨rfl, h.symm⟩

/-- Membership inversion for the constructed run list. -/
theorem mem_parameter_servers_init {pop : Population} {pf bn sp : String}
    {lps : List (String × List ℚ)} {fs : String → Bool} {u : Universe}
    (h : Universe.init pop pf bn sp lps fs = .ok u)
    {ps : ParameterServer} (hps : ps ∈ u.parameter_servers) :
    ∃ i, i < u.n_grbs ∧ fs (u.store_file_name i) = false ∧
      ps = (u.contstruct_parameter_server i).set_file_path
            (u.store_file_name i) := by
  obtain ⟨hc, dur, hd, hu⟩ := Universe.init_ok h
  subst hu
  rw [contstruct_parameter_servers_eq] at hps
  simp only [List.nil_append] at hps
  obtain ⟨i, hi, hg⟩ := List.mem_filterMap.mp hps
  rw [List.mem_range] at hi
  obtain ⟨h1, h2⟩ := skip_or_server_some hg
  exact ⟨i, hi, h1, h2⟩

theorem lookup_T0_param_dict (u : Universe) (i : Nat)
    (h : u.local_parameters = []) :
    List.lookup "T0" (u.param_dict i) = some (PValue.num 0) := by
  simp only [Universe.param_dict, h, List.map_nil, List.foldl_nil]
  rfl

theorem init_pop_example :
    Universe.init pop_example "pop.h5" "SynthGRB" "." [] (fun _ => false)
      = .ok universe_example := by
  rfl

theorem init_pop_example3 :
    Universe.init pop_example3 "pop3.h5" "Test" "." [] fs_example
      = .ok universe_example3 := by
  rfl

theorem skip_or_server_ext (u : Universe) (fs : String → Bool) :
    u.skip_or_server fs = fun i =>
      if fs (u.store_file_name i) then none
      else some ((u.contstruct_parameter_server i).set_file_path
        (u.store_file_name i)) := by
  funext i
  simp [Universe.skip_or_server]

/-- Inversion of a successful `Universe.go`: every queued job returned,
and the only change is the processed flag. -/
theorem Universe.go_ok {ε : Type} {u : Universe}
    {run_one : ParameterServer → Bool → Except ε Unit} {client : Bool}
    {u' : Universe} (h : u.go run_one client = .ok u') :
    run_batch run_one u.parameter_servers (!client) = .ok () ∧
    u' = { u with is_processed := true } := by
  unfold Universe.go at h
  cases hb : run_batch run_one u.parameter_servers (!client) with
  | error e => rw [hb] at h; cases h
  | ok x => rw [hb] at h; cases x; exact ⟨rfl, (Except.ok.inj h).symm⟩

/-- Inversion of a failed `Universe.go`: the batch raised, and the
exception propagated unchanged (in particular the flag assignment at
universe.py line 162 never ran). -/
theorem Universe.go_error {ε : Type} {u : Universe}
    {run_one : ParameterServer → Bool → Except ε Unit} {client : Bool}
    {e : ε} (h : u.go run_one client = .error e) :
    run_batch run_one u.parameter_servers (!client) = .error e := by
  unfold Universe.go at h
  cases hb : run_batch run_one u.parameter_servers (!client) with
  | error e2 => rw [hb] at h; cases h; rfl
  | ok x => rw [hb] at h; cases h

theorem lookup_update_det_self (l : List (String × DRMGen)) (k : String)
    (f : DRMGen → DRMGen) :
    List.lookup k (update_det l k f) = (List.lookup k l).map f := by
  induction l with
  | nil => rfl
  | cons kv rest ih =>
    simp only [update_det, List.map_cons]
    by_cases hk : kv.1 = k
    · rw [if_pos hk]
      simp [List.lookup, hk]
    · rw [if_neg hk]
      have hb : (k == kv.1) = false := beq_eq_false_iff_ne.mpr (Ne.symm hk)
      simp only [List.lookup, hb]
      simpa [update_det] using ih

theorem lookup_update_det_other (l : List (String × DRMGen)) (k k' : String)
    (f : DRMGen → DRMGen) (h : k' ≠ k) :
    List.lookup k' (update_det l k f) = List.lookup k' l := by
  induction l with
  | nil => rfl
  | cons kv rest ih =>
    simp only [update_det, List.map_cons]
    by_cases hk : kv.1 = k
    · rw [if_pos hk]
      have hb : (k' == kv.1) = false := by
        rw [hk]
        exact beq_eq_false_iff_ne.mpr h
      simp only [List.lookup, hb]
      simpa [update_det] using ih
    · rw [if_neg hk]
      simp only [List.lookup]
      cases hb : (k' == kv.1)
      · simpa [update_det] using ih
      · rfl

/-- Repeated calls after the instance is cached return the cached
instance and leave the class state untouched. -/
theorem singleton_iterate_cached {α : Type} (build : Unit → α)
    (s : SingletonState α) (o : α) (h : s.inst = some o) (m : Nat) :
    SingletonMeta.iterate build s m = (s, List.replicate m o) := by
  induction m with
  | zero => rfl
  | succ m ih =>
    have hc : SingletonMeta.call build s = (s, o) := by
      unfold SingletonMeta.call
      rw [h]
    simp only [SingletonMeta.iterate, hc, ih, List.replicate]

/-! ## Claim theorems -/

/-- C1: for every record index `i` of a successfully constructed
universe, the loop of `_contstruct_parameter_servers` queues the
`ParameterServer` built for `i` — with its file path set to
`{save_path}/{base_name}_{i}_store.h5` — exactly when that file does not
already exist; when the file exists nothing for record `i` is appended
(the built server keeps its file path unset and no queued server carries
record `i`'s path).  The existence check runs inside construction,
before `go` ever dispatches anything: the run list is already filtered
in the constructed `Universe`. -/
theorem skip_rule (pop : Population) (pf bn sp : String)
    (lps : List (String × List ℚ)) (fs : String → Bool) (u : Universe)
    (h : Universe.init pop pf bn sp lps fs = .ok u) :
    u.n_grbs = pop.selection.length ∧
    (∀ i, i < u.n_grbs →
      u.store_file_name i
        = path_join sp (bn ++ "_" ++ toString i ++ "_store.h5")) ∧
    u.parameter_servers
      = (List.range u.n_grbs).filterMap (fun i =>
          if fs (u.store_file_name i) then none
          else some ((u.contstruct_parameter_server i).set_file_path
            (u.store_file_name i))) ∧
    (∀ i, (u.contstruct_parameter_server i).file_path = none) ∧
    (∀ i, i < u.n_grbs → fs (u.store_file_name i) = false →
      (u.contstruct_parameter_server i).set_file_path (u.store_file_name i)
        ∈ u.parameter_servers) ∧
    (∀ i, i < u.n_grbs → fs (u.store_file_name i) = true →
      ∀ ps ∈ u.parameter_servers,
        ps.file_path ≠ some (u.store_file_name i)) := by
  obtain ⟨hc, dur, hd, hu⟩ := Universe.init_ok h
  have hn : u.n_grbs = pop.selection.length := by rw [hu]; rfl
  have hfile : ∀ i, i < u.n_grbs →
      u.store_file_name i
        = path_join sp (bn ++ "_" ++ toString i ++ "_store.h5") := by
    intro i hi
    rw [hn] at hi
    rw [hu]
    show path_join sp
      ((((List.range pop.selection.length).map
        (fun j => bn ++ "_" ++ toString j)).getD i "") ++ "_store.h5") = _
    rw [getD_map_range _ _ _ hi]
  have hlist : u.parameter_servers
      = (List.range u.n_grbs).filterMap (u.skip_or_server fs) := by
    conv_lhs => rw [hu]
    rw [contstruct_parameter_servers_eq]
    simp only [List.nil_append]
    rw [hu]
    rfl
  refine ⟨hn, hfile, ?_, ?_, ?_, ?_⟩
  · rw [hlist, ← skip_or_server_ext]
  · intro i
    rfl
  · intro i hi hfs
    rw [hlist]
    refine List.mem_filterMap.mpr ⟨i, List.mem_range.mpr hi, ?_⟩
    simp [Universe.skip_or_server, hfs]
  · intro i hi hfs ps hps heq
    obtain ⟨j, hj, hjfs, hjeq⟩ := mem_parameter_servers_init h hps
    rw [hjeq] at heq
    have : u.store_file_name j = u.store_file_name i :=
      Option.some.inj heq
    rw [this] at hjfs
    rw [hfs] at hjfs
    cases hjfs

/-- Witness for C1, on the spec §8 skip-on-exists scenario: three
selected records, `Test_1_store.h5` pre-existing, records 0 and 2
queued. -/
theorem skip_rule_witness :
    Universe.init pop_example3 "pop3.h5" "Test" "." [] fs_example
      = .ok universe_example3 ∧
    (universe_example3.n_grbs = pop_example3.selection.length ∧
    (∀ i, i < universe_example3.n_grbs →
      universe_example3.store_file_name i
        = path_join "." ("Test" ++ "_" ++ toString i ++ "_store.h5")) ∧
    universe_example3.parameter_servers
      = (List.range universe_example3.n_grbs).filterMap (fun i =>
          if fs_example (universe_example3.store_file_name i) then none
          else some
            ((universe_example3.contstruct_parameter_server i).set_file_path
              (universe_example3.store_file_name i))) ∧
    (∀ i, (universe_example3.contstruct_parameter_server i).file_path
        = none) ∧
    (∀ i, i < universe_example3.n_grbs →
      fs_example (universe_example3.store_file_name i) = false →
      (universe_example3.contstruct_parameter_server i).set_file_path
          (universe_example3.store_file_name i)
        ∈ universe_example3.parameter_servers) ∧
    (∀ i, i < universe_example3.n_grbs →
      fs_example (universe_example3.store_file_name i) = true →
      ∀ ps ∈ universe_example3.parameter_servers,
        ps.file_path ≠ some (universe_example3.store_file_name i))) :=
  ⟨init_pop_example3,
   skip_rule pop_example3 "pop3.h5" "Test" "." [] fs_example
     universe_example3 init_pop_example3⟩

/-- C2: a population in which some record's selection flag is false
makes `Universe.init` fail with `UnfilteredPopulationError` (the assert
at universe.py lines 56–58), whatever the other records look like; the
check precedes `_process_populations` and
`_contstruct_parameter_servers`, so no `ParameterServer` is ever built
(the error result carries no universe and hence no run list). -/
theorem universe_init_unfiltered (pop : Population) (pf bn sp : String)
    (lps : List (String × List ℚ)) (fs : String → Bool)
    (h : false ∈ pop.selection) :
    Universe.init pop pf bn sp lps fs
      = .error .UnfilteredPopulationError := by
  unfold Universe.init
  rw [if_neg]
  intro hc
  have := List.count_eq_length.mp hc false h
  simp at this

/-- Witness for C2: a three-record population whose middle record is
deselected is rejected. -/
theorem universe_init_unfiltered_witness :
    false ∈ [true, false, true] ∧
    Universe.init ⟨[1, 2, 3], [4, 5, 6], [7, 8, 9], some [10, 11, 12],
        [true, false, true]⟩ "pop.h5" "SynthGRB" "." [] (fun _ => false)
      = .error .UnfilteredPopulationError := by
  constructor
  · decide
  · exact universe_init_unfiltered _ _ _ _ _ _ (by decide)

/-- C3: each registry operation — `set_time`, `set_location` and
`generate_response` — called with a detector identity that is not
registered fails with `UnknownDetectorError` (the `assert det_name in
self._detectors` at response_generator.py lines 84, 110 and 128).  The
assert fires before any mutation, so the error result carries no
successor registry: every registered detector model keeps its state. -/
theorem unknown_detector_rejected (mat : DRMGen → List (List ℚ))
    (rg : ResponseGenerator) (ra dec time : ℚ) (det_name : String)
    (h : List.lookup det_name rg.detectors = none) :
    rg.set_time time det_name = .error .UnknownDetectorError ∧
    ResponseGenerator.set_location mat rg ra dec det_name
      = .error .UnknownDetectorError ∧
    ResponseGenerator.generate_response mat rg ra dec time det_name
      = .error .UnknownDetectorError := by
  unfold ResponseGenerator.set_time ResponseGenerator.set_location
    ResponseGenerator.generate_response
  rw [h]
  exact ⟨rfl, rfl, rfl⟩

/-- Witness for C3: `q7` is not one of the 14 GBM detector codes. -/
theorem unknown_detector_rejected_witness :
    List.lookup "q7" rg_example.detectors = none ∧
    (rg_example.set_time 5 "q7" = .error .UnknownDetectorError ∧
    ResponseGenerator.set_location (fun _ => []) rg_example 1 2 "q7"
      = .error .UnknownDetectorError ∧
    ResponseGenerator.generate_response (fun _ => []) rg_example 1 2 5 "q7"
      = .error .UnknownDetectorError) :=
  ⟨rfl, unknown_detector_rejected (fun _ => []) rg_example 1 2 5 "q7" rfl⟩

/-- C4: starting from an unbuilt class (`_inst` absent), any positive
number `n` of construction requests `ResponseGenerator()` routed through
`SingletonMeta.__call__` runs the class body exactly once, caches that
single instance, and returns it from every request — the second and
every later request performs no rebuild, so at most one registry
instance ever exists per process. -/
theorem registry_singleton (T0 : ℚ) (data_file : String → String)
    (mc_of eb_of : String → List ℚ) (n : Nat) (hn : 0 < n) :
    (SingletonMeta.iterate
        (fun _ => ResponseGenerator.init T0 data_file mc_of eb_of)
        { inst := none, builds := 0 } n).1.builds = 1 ∧
    (SingletonMeta.iterate
        (fun _ => ResponseGenerator.init T0 data_file mc_of eb_of)
        { inst := none, builds := 0 } n).1.inst
      = some (ResponseGenerator.init T0 data_file mc_of eb_of) ∧
    (∀ a ∈ (SingletonMeta.iterate
        (fun _ => ResponseGenerator.init T0 data_file mc_of eb_of)
        { inst := none, builds := 0 } n).2,
      a = ResponseGenerator.init T0 data_file mc_of eb_of) := by
  obtain ⟨m, rfl⟩ := Nat.exists_eq_add_of_lt hn
  set build := fun (_ : Unit) => ResponseGenerator.init T0 data_file mc_of eb_of
    with hbuild
  have hfirst : SingletonMeta.call build { inst := none, builds := 0 }
      = ({ inst := some (build ()), builds := 1 }, build ()) := rfl
  have hrest := singleton_iterate_cached build
    { inst := some (build ()), builds := 1 } (build ()) rfl m
  rw [show 0 + m + 1 = m + 1 by omega]
  simp only [SingletonMeta.iterate, hfirst, hrest]
  refine ⟨trivial, trivial, ?_⟩
  intro a ha
  rcases List.mem_cons.mp ha with h | h
  · exact h
  · exact List.eq_of_mem_replicate h

/-- Witness for C4: two construction requests with concrete oracles
build once and both return that build. -/
theorem registry_singleton_witness :
    0 < 2 ∧
    ((SingletonMeta.iterate
        (fun _ => ResponseGenerator.init 0 (fun s => s) (fun _ => [])
          (fun _ => []))
        { inst := none, builds := 0 } 2).1.builds = 1 ∧
    (SingletonMeta.iterate
        (fun _ => ResponseGenerator.init 0 (fun s => s) (fun _ => [])
          (fun _ => []))
        { inst := none, builds := 0 } 2).1.inst
      = some (ResponseGenerator.init 0 (fun s => s) (fun _ => [])
          (fun _ => [])) ∧
    (∀ a ∈ (SingletonMeta.iterate
        (fun _ => ResponseGenerator.init 0 (fun s => s) (fun _ => [])
          (fun _ => []))
        { inst := none, builds := 0 } 2).2,
      a = ResponseGenerator.init 0 (fun s => s) (fun _ => [])
          (fun _ => []))) :=
  ⟨by decide,
   registry_singleton 0 (fun s => s) (fun _ => []) (fun _ => []) 2
     (by decide)⟩

/-- C5: a `generate_response` call for a registered detector succeeds,
leaves the identified detector model with its time set to the given
time and its pointing set to the given `(ra, dec)` — the result of
`set_time` followed by `set_location` — returns that detector's
response matrix transposed (`matrix.T`), and touches no other
detector's state (nor the energy tables). -/
theorem generate_response_spec (mat : DRMGen → List (List ℚ))
    (rg : ResponseGenerator) (ra dec time : ℚ) (det_name : String)
    (d : DRMGen) (h : List.lookup det_name rg.detectors = some d) :
    ∃ rg', ResponseGenerator.generate_response mat rg ra dec time det_name
        = .ok (rg', (mat ((d.set_time time).set_location ra dec)).transpose)
      ∧
      List.lookup det_name rg'.detectors
        = some ((d.set_time time).set_location ra dec) ∧
      (∀ k, k ≠ det_name →
        List.lookup k rg'.detectors = List.lookup k rg.detectors) ∧
      rg'.mc_energies = rg.mc_energies ∧ rg'.ebounds = rg.ebounds := by
  have h1 : List.lookup det_name
      (update_det rg.detectors det_name (fun x => x.set_time time))
      = some (d.set_time time) := by
    rw [lookup_update_det_self, h]
    rfl
  have h2 : List.lookup det_name
      (update_det
        (update_det rg.detectors det_name (fun x => x.set_time time))
        det_name (fun x => x.set_location ra dec))
      = some ((d.set_time time).set_location ra dec) := by
    rw [lookup_update_det_self, h1]
    rfl
  refine ⟨{ rg with detectors :=
      (update_det
        (update_det rg.detectors det_name (fun x => x.set_time time))
        det_name (fun x => x.set_location ra dec)) }, ?_, h2, ?_, rfl, rfl⟩
  · simp only [ResponseGenerator.generate_response, h, h1, h2]
  · intro k hk
    rw [lookup_update_det_other _ _ _ _ hk, lookup_update_det_other _ _ _ _ hk]

/-- Witness for C5: a query on detector `n0` of the concrete registry,
with a matrix oracle that exposes the generator's current time. -/
theorem generate_response_spec_witness :
    List.lookup "n0" rg_example.detectors = some drm_n0 ∧
    (∃ rg', ResponseGenerator.generate_response (fun d => [[d.time]])
        rg_example 3 4 5 "n0"
        = .ok (rg',
            ((fun (d : DRMGen) => [[d.time]])
              ((drm_n0.set_time 5).set_location 3 4)).transpose) ∧
      List.lookup "n0" rg'.detectors
        = some ((drm_n0.set_time 5).set_location 3 4) ∧
      (∀ k, k ≠ "n0" →
        List.lookup k rg'.detectors = List.lookup k rg_example.detectors) ∧
      rg'.mc_energies = rg_example.mc_energies ∧
      rg'.ebounds = rg_example.ebounds) :=
  ⟨rfl, generate_response_spec (fun d => [[d.time]]) rg_example 3 4 5 "n0"
    drm_n0 rfl⟩

/-- C6: a freshly constructed universe has `is_processed = false`; `go`
sets it to true exactly when the whole batch (serial or distributed)
completed without an exception, and a failed batch propagates the
exception with the flag never assigned; while the flag is false,
`save` is a no-op — it writes no survey artifact (and the method never
mutates the universe). -/
theorem is_processed_lifecycle (pop : Population) (pf bn sp : String)
    (lps : List (String × List ℚ)) (fs : String → Bool) (u : Universe)
    (h : Universe.init pop pf bn sp lps fs = .ok u) :
    u.is_processed = false ∧
    (∀ (ε : Type) (run_one : ParameterServer → Bool → Except ε Unit)
        (client : Bool) (e : ε),
      u.go run_one client = .error e →
      run_batch run_one u.parameter_servers (!client) = .error e) ∧
    (∀ (ε : Type) (run_one : ParameterServer → Bool → Except ε Unit)
        (client : Bool) (u' : Universe),
      u.go run_one client = .ok u' →
      run_batch run_one u.parameter_servers (!client) = .ok () ∧
      u' = { u with is_processed := true }) ∧
    (∀ (v : Universe) (f : String), v.is_processed = false →
      v.save f = none) := by
  obtain ⟨hc, dur, hd, hu⟩ := Universe.init_ok h
  refine ⟨by rw [hu]; rfl, ?_, ?_, ?_⟩
  · intro ε run_one client e hgo
    exact Universe.go_error hgo
  · intro ε run_one client u' hgo
    exact Universe.go_ok hgo
  · intro v f hv
    unfold Universe.save
    rw [if_neg]
    rw [hv]
    simp

/-- Witness for C6, on the one-record example universe. -/
theorem is_processed_lifecycle_witness :
    Universe.init pop_example "pop.h5" "SynthGRB" "." [] (fun _ => false)
      = .ok universe_example ∧
    (universe_example.is_processed = false ∧
    (∀ (ε : Type) (run_one : ParameterServer → Bool → Except ε Unit)
        (client : Bool) (e : ε),
      universe_example.go run_one client = .error e →
      run_batch run_one universe_example.parameter_servers (!client)
        = .error e) ∧
    (∀ (ε : Type) (run_one : ParameterServer → Bool → Except ε Unit)
        (client : Bool) (u' : Universe),
      universe_example.go run_one client = .ok u' →
      run_batch run_one universe_example.parameter_servers (!client)
        = .ok () ∧
      u' = { universe_example with is_processed := true }) ∧
    (∀ (v : Universe) (f : String), v.is_processed = false →
      v.save f = none)) :=
  ⟨init_pop_example,
   is_processed_lifecycle pop_example "pop.h5" "SynthGRB" "."
     [] (fun _ => false) universe_example init_pop_example⟩

/-- C7: after a successful `go`, `save(output_file)` writes at
`output_file` a survey whose per-GRB file list is
`{save_path}/{base_name}_{i}_store.h5` for every `i` from 0 to N−1 over
the full population count N — rebuilt from the base name and index, not
read off the (possibly skip-filtered) run list — together with the
original population file reference. -/
theorem save_rebuilds_all_paths (pop : Population) (pf bn sp : String)
    (lps : List (String × List ℚ)) (fs : String → Bool) (u : Universe)
    (ε : Type) (run_one : ParameterServer → Bool → Except ε Unit)
    (client : Bool) (u' : Universe) (out : String)
    (h : Universe.init pop pf bn sp lps fs = .ok u)
    (hgo : u.go run_one client = .ok u') :
    u'.save out = some (out,
      { grb_save_files := (List.range pop.selection.length).map
          (fun i => path_join sp (bn ++ "_" ++ toString i ++ "_store.h5"))
        population_file := Path.absolute pf }) := by
  obtain ⟨hc, dur, hd, hu⟩ := Universe.init_ok h
  obtain ⟨hb, hu'⟩ := Universe.go_ok hgo
  subst hu'
  subst hu
  rfl

/-- Witness for C7, on the skip-on-exists scenario: the survey lists
all three expected paths, including the pre-existing
`Test_1_store.h5`, although only two servers were queued. -/
theorem save_rebuilds_all_paths_witness :
    Universe.init pop_example3 "pop3.h5" "Test" "." [] fs_example
      = .ok universe_example3 ∧
    universe_example3.go run_ok false
      = .ok { universe_example3 with is_processed := true } ∧
    ({ universe_example3 with is_processed := true } : Universe).save
        "survey.h5"
      = some ("survey.h5",
        { grb_save_files := (List.range pop_example3.selection.length).map
            (fun i => path_join "."
              ("Test" ++ "_" ++ toString i ++ "_store.h5"))
          population_file := Path.absolute "pop3.h5" }) := by
  refine ⟨init_pop_example3, rfl, ?_⟩
  exact save_rebuilds_all_paths pop_example3 "pop3.h5" "Test" "." []
    fs_example universe_example3 Unit run_ok false
    { universe_example3 with is_processed := true } "survey.h5"
    init_pop_example3 rfl

/-- C8: one `GRBWrapper` invocation on a `ParameterServer` and a mode
flag constructs exactly one GRB with all of the server's parameters as
keyword arguments, runs it with the mode flag passed through, saves it
to the server's assigned file path with the clean-up flag true, then
discards it; the invocation returns nothing (`Unit`). -/
theorem grb_wrapper_contract (ps : ParameterServer) (serial : Bool) :
    GRBWrapper.init ps serial
      = ([GRBEvent.construct ps.parameters, GRBEvent.run none serial,
          GRBEvent.save ps.file_path true, GRBEvent.discard], ()) ∧
    (GRBWrapper.init ps serial).1.countP
        (fun e => match e with
          | GRBEvent.construct _ => true
          | _ => false) = 1 := by
  cases serial <;> exact ⟨rfl, rfl⟩

/-- C9 counterexample: a population that both lacks a duration column
and contains a deselected record fails with
`UnfilteredPopulationError` — the selection assert at universe.py line
56 runs before `_get_duration` — so it does not fail with
`MissingFieldError`, contradicting the claim's unconditional "for every
population whose schema lacks a duration field". -/
theorem universe_init_missing_duration_counterexample :
    Universe.init ⟨[1], [2], [3], none, [false]⟩ "pop.h5" "SynthGRB" "."
        [] (fun _ => false)
      = .error .UnfilteredPopulationError ∧
    Universe.init ⟨[1], [2], [3], none, [false]⟩ "pop.h5" "SynthGRB" "."
        [] (fun _ => false)
      ≠ .error .MissingFieldError := by
  refine ⟨rfl, ?_⟩
  intro h
  have h2 : (Except.error CosmogrbError.UnfilteredPopulationError :
      Except CosmogrbError Universe)
      = .error .MissingFieldError :=
    ((rfl : (Except.error CosmogrbError.UnfilteredPopulationError :
        Except CosmogrbError Universe)
      = Universe.init ⟨[1], [2], [3], none, [false]⟩ "pop.h5" "SynthGRB"
          "." [] (fun _ => false))).trans h
  exact CosmogrbError.noConfusion (Except.error.inj h2)

/-- C9 (amended): for every population that passes the selection
precondition (all records selected) and whose schema lacks a duration
field, `Universe.init` fails with `MissingFieldError` — the
duration-derivation step raises rather than defaulting — before
`_contstruct_parameter_servers` runs, so no `ParameterServer` is built
(the error result carries no universe and hence no run list). -/
theorem universe_init_missing_duration (pop : Population)
    (pf bn sp : String) (lps : List (String × List ℚ))
    (fs : String → Bool)
    (hsel : pop.selection.count true = pop.selection.length)
    (hdur : pop.duration = none) :
    Universe.init pop pf bn sp lps fs = .error .MissingFieldError := by
  unfold Universe.init
  rw [if_pos hsel, hdur]

/-- Witness for the amended C9: a fully selected two-record population
without a duration column. -/
theorem universe_init_missing_duration_witness :
    ([true, true] : List Bool).count true = 2 ∧
    Universe.init ⟨[1, 2], [3, 4], [5, 6], none, [true, true]⟩ "pop.h5"
        "SynthGRB" "." [] (fun _ => false)
      = .error .MissingFieldError := by
  refine ⟨by decide, ?_⟩
  exact universe_init_missing_duration _ _ _ _ _ _ (by decide) rfl

/-- C10: with this class's empty `_local_parameters` (universe.py line
70), every `ParameterServer` the construction builds — both the one
built for any index `i` and every member of the queued run list — has
its `T0` parameter equal to the hard-coded `0.0` of universe.py line
105, independent of the population contents, the constructor inputs and
the filesystem. -/
theorem t0_always_zero (pop : Population) (pf bn sp : String)
    (fs : String → Bool) (u : Universe)
    (h : Universe.init pop pf bn sp [] fs = .ok u) :
    (∀ i, List.lookup "T0" ((u.contstruct_parameter_server i).parameters)
        = some (PValue.num 0)) ∧
    (∀ ps ∈ u.parameter_servers,
        List.lookup "T0" ps.parameters = some (PValue.num 0)) := by
  have hlp : u.local_parameters = [] := by
    obtain ⟨hc, dur, hd, hu⟩ := Universe.init_ok h
    subst hu
    rfl
  constructor
  · intro i
    exact lookup_T0_param_dict u i hlp
  · intro ps hps
    obtain ⟨i, hi, hfs, heq⟩ := mem_parameter_servers_init h hps
    rw [heq]
    exact lookup_T0_param_dict u i hlp

/-- Witness for C10, on the one-record example universe. -/
theorem t0_always_zero_witness :
    Universe.init pop_example "pop.h5" "SynthGRB" "." [] (fun _ => false)
      = .ok universe_example ∧
    ((∀ i, List.lookup "T0"
        ((universe_example.contstruct_parameter_server i).parameters)
        = some (PValue.num 0)) ∧
    (∀ ps ∈ universe_example.parameter_servers,
        List.lookup "T0" ps.parameters = some (PValue.num 0))) :=
  ⟨init_pop_example,
   t0_always_zero pop_example "pop.h5" "SynthGRB" "." (fun _ => false)
     universe_example init_pop_example⟩
